import Mathlib

/-!
Verification of the DockForge command-orchestration core.

The definitions below are a shallow embedding of the TypeScript sources:
  - src/utilities/dockerBuild.ts   (build/run orchestration, output classification)
  - src/utilities/dockerCheck.ts   (namespace validation, interactive tag/push)
  - src/DockerHubViewProvider.ts   (runContainer: terminal vs managed execution)
  - DockerHubAuthManager.login     (credential handling)

JavaScript strings are modelled by Lean `String`; JS `Array`/`Record` values
by `List`; `undefined`-able fields by `Option`; the filesystem by a list of
file paths; an external process by an oracle value (`ProcOutcome`) listing the
streamed lines and the exit code.  JS truthiness on optional strings treats
the empty string as absent, and on optional booleans only `true` as set;
`truthyS` and `truthyB` encode exactly that.
-/

/-- JS `String.prototype.includes` on character lists: `pat` occurs
contiguously in `hay`. -/
def containsSub (hay pat : List Char) : Bool :=
  match hay with
  | [] => pat.isEmpty
  | _ :: t => pat.isPrefixOf hay || containsSub t pat

/-- JS `s.includes(pat)`. -/
def strIncludes (s pat : String) : Bool :=
  containsSub s.data pat.data

/-- JS `s.toLowerCase()` (ASCII-relevant part). -/
def lowerStr (s : String) : String :=
  String.mk (s.data.map Char.toLower)

/-- JS truthiness of an optional string (`undefined` and `""` are falsy). -/
def truthyS (o : Option String) : Bool :=
  match o with
  | none => false
  | some s => s ≠ ""

/-- JS truthiness of an optional boolean (`undefined` and `false` are falsy). -/
def truthyB (o : Option Bool) : Bool :=
  match o with
  | none => false
  | some b => b

/-! ### Output classification (executeDockerCommand handlers, dockerBuild.ts) -/

/-- dockerBuild.ts stderr handler: a line is an error exactly when its
lowercase form contains "error", "failed" or "cannot". -/
def isErrorLine (line : String) : Bool :=
  strIncludes (lowerStr line) "error" ||
  strIncludes (lowerStr line) "failed" ||
  strIncludes (lowerStr line) "cannot"

/-- Character class `[a-f0-9]` under the `/i` regex flag. -/
def isHexCharCI (c : Char) : Bool :=
  c.isDigit || ("abcdef".data.contains c.toLower)

/-- Case-insensitive literal match of `pat` at the head of `l`; returns the
rest of `l` on success (regex literal under `/i`). -/
def matchCI : List Char → List Char → Option (List Char)
  | [], l => some l
  | _ :: _, [] => none
  | p :: ps, c :: cs => if p.toLower = c.toLower then matchCI ps cs else none

/-- Decimal digit run to a natural number. -/
def charsToNat (l : List Char) : Nat :=
  l.foldl (fun n c => n * 10 + (c.toNat - '0'.toNat)) 0

/-- One attempt of `/Step (\d+)\/(\d+)\s*:\s*(.+)/i` anchored at the current
position: literal "Step ", digits, "/", digits, whitespace, ":", whitespace,
then a non-empty remainder captured as the instruction. -/
def tryStageAt (l : List Char) : Option (Nat × Nat × String) :=
  match matchCI ("Step ".data) l with
  | none => none
  | some r1 =>
    match r1.span Char.isDigit with
    | (d1, r2) =>
      if d1.isEmpty then none else
      match r2 with
      | '/' :: r3 =>
        match r3.span Char.isDigit with
        | (d2, r4) =>
          if d2.isEmpty then none else
          match r4.dropWhile Char.isWhitespace with
          | ':' :: r6 =>
            match r6.dropWhile Char.isWhitespace with
            | [] => none
            | c :: r7 => some (charsToNat d1, charsToNat d2, String.mk (c :: r7))
          | _ => none
      | _ => none

/-- Leftmost search for the stage pattern (RegExp.exec is unanchored). -/
def scanStage : List Char → Option (Nat × Nat × String)
  | [] => none
  | c :: t =>
    match tryStageAt (c :: t) with
    | some r => some r
    | none => scanStage t

/-- `stageRegex.exec(line)`: progress extraction from a build output line. -/
def stageMatch (line : String) : Option (Nat × Nat × String) :=
  scanStage line.data

/-- One attempt of `/Successfully built ([a-f0-9]+)/i` at the current
position: the capture is the maximal hex run after the literal. -/
def tryImageAt (l : List Char) : Option String :=
  match matchCI ("Successfully built ".data) l with
  | none => none
  | some r =>
    match r.span isHexCharCI with
    | (hx, _) => if hx.isEmpty then none else some (String.mk hx)

/-- Leftmost search for the image-id pattern. -/
def scanImage : List Char → Option String
  | [] => none
  | c :: t =>
    match tryImageAt (c :: t) with
    | some r => some r
    | none => scanImage t

/-- `imageIdRegex.exec(line)`: image id extraction. -/
def imageIdMatch (line : String) : Option String :=
  scanImage line.data

/-- `/^([a-f0-9]{64})$/i`: whole-line 64-hex container id, truncated to the
first 12 characters as in the source (`substring(0, 12)`). -/
def containerIdMatch (line : String) : Option String :=
  if line.data.length = 64 && line.data.all isHexCharCI then
    some (String.mk (line.data.take 12))
  else
    none

/-! ### Process model (executeDockerCommand, dockerBuild.ts lines 320-408) -/

/-- Which stream a line arrived on. -/
inductive SourceT where
  | stdout
  | stderr
deriving DecidableEq, Repr

/-- Behaviour of one spawned engine process, as observed by the handlers:
either the executable could not be launched (the "error" event fires with a
message), or the process streams a sequence of non-empty lines and then
closes with an exit code (`none` models a `null` code). -/
inductive ProcOutcome where
  | failedToLaunch (msg : String)
  | exited (events : List (SourceT × String)) (code : Option Int)
deriving DecidableEq, Repr

/-- Everything the per-line handler computes from one line: the text shown,
whether it was error-classified, and the extracted artifacts. -/
structure LineView where
  display : String
  isError : Bool
  progress : Option (Nat × Nat × String)
  imageId : Option String
  containerId : Option String
deriving DecidableEq, Repr

/-- Per-line processing of a stdout line (dockerBuild.ts stdout handler):
progress, image-id and container-id extraction; never error-classified. -/
def stdoutView (line : String) : LineView :=
  { display := line
    isError := false
    progress := stageMatch line
    imageId := imageIdMatch line
    containerId := containerIdMatch line }

/-- Per-line processing of a stderr line (dockerBuild.ts stderr handler):
error marking only; error lines are displayed with a "[stderr] " prefix. -/
def stderrView (line : String) : LineView :=
  { display := if isErrorLine line then "[stderr] " ++ line else line
    isError := isErrorLine line
    progress := none
    imageId := none
    containerId := none }

/-- The classification the handlers assign to one streamed line. -/
def lineView : SourceT → String → LineView
  | SourceT.stdout, line => stdoutView line
  | SourceT.stderr, line => stderrView line

/-- Mutable state threaded through the handlers of one invocation. -/
structure ExecState where
  imageId : Option String
  containerId : Option String
  errorOutput : String
  logs : List String
deriving DecidableEq, Repr

/-- State before any line arrives. -/
def initExecState : ExecState :=
  { imageId := none, containerId := none, errorOutput := "", logs := [] }

/-- Processing of one streamed line: updates the accumulated state and
yields the view emitted for that line. -/
def stepLine (st : ExecState) (src : SourceT) (line : String) : ExecState × LineView :=
  let v := lineView src line
  match src with
  | SourceT.stdout =>
    ({ st with
        logs := st.logs ++ [line]
        imageId := match v.imageId with
          | some i => some i
          | none => st.imageId
        containerId := match v.containerId with
          | some c => some c
          | none => st.containerId }, v)
  | SourceT.stderr =>
    ({ st with
        logs := st.logs ++ [line]
        errorOutput :=
          if v.isError then st.errorOutput ++ line ++ "\n" else st.errorOutput }, v)

/-- Folding the handlers over the whole stream. -/
def runEvents (events : List (SourceT × String)) : ExecState :=
  events.foldl (fun st e => (stepLine st e.1 e.2).1) initExecState

/-- Result value the promise in executeDockerCommand resolves with, together
with the shared `logs` array as it stands at resolution time. -/
structure ExecResult where
  success : Bool
  error : Option String
  imageId : Option String
  containerId : Option String
  logs : List String
deriving DecidableEq, Repr

/-- Rendering of the close code in the fallback error message
(the template "Process exited with code " plus the code; a `null` code
prints as "null"). -/
def codeToString : Option Int → String
  | some n => toString n
  | none => "null"

/-- Error body used on a non-zero exit: the accumulated error-classified
stderr text, or the exit-code message when none was accumulated. -/
def exitErrorBody (events : List (SourceT × String)) (code : Option Int) : String :=
  if (runEvents events).errorOutput ≠ "" then (runEvents events).errorOutput
  else "Process exited with code " ++ codeToString code

/-- executeDockerCommand: spawn, stream, resolve.  The `args` vector is
passed to the spawn call; the resolved value depends on the process
behaviour. -/
def executeDockerCommand (args : List String) (proc : ProcOutcome) : ExecResult :=
  match args, proc with
  | _, ProcOutcome.failedToLaunch msg =>
    { success := false, error := some msg, imageId := none, containerId := none,
      logs := [] }
  | _, ProcOutcome.exited events code =>
    let st := runEvents events
    if code = some 0 then
      { success := true, error := none, imageId := st.imageId,
        containerId := st.containerId, logs := st.logs }
    else
      { success := false, error := some (exitErrorBody events code),
        imageId := none, containerId := none, logs := st.logs }

/-! ### Build orchestration (dockerBuild.ts lines 6-203, 413-430) -/

/-- BuildOptions (dockerBuild.ts).  `buildArgs` keeps `Object.entries`
insertion order as a list of pairs. -/
structure BuildOptions where
  imageName : String
  imageTag : String
  dockerfile : Option String
  dockerfileContent : Option String
  contextPath : String
  noCache : Option Bool
  pull : Option Bool
  buildArgs : Option (List (String × String))
  target : Option String
  platform : Option String
deriving DecidableEq, Repr

/-- BuildResult (dockerBuild.ts). -/
structure BuildResult where
  success : Bool
  imageId : Option String
  error : Option String
  logs : List String
deriving DecidableEq, Repr

/-- The filesystem as the set of existing file paths. -/
def fsInsert (p : String) (fs : List String) : List String :=
  if fs.contains p then fs else p :: fs

/-- `fs.unlinkSync`. -/
def fsErase (p : String) (fs : List String) : List String :=
  fs.erase p

/-- createTempDockerfile: `path.join(contextPath, "")` is `contextPath`
itself, so the temp file is written directly under the context directory as
`Dockerfile.<id>`; the id is `Date.now().toString()`. -/
def tempDockerfilePath (contextPath : String) (nowId : Nat) : String :=
  contextPath ++ "/" ++ "Dockerfile." ++ toString nowId

/-- createTempDockerfile effect on the filesystem. -/
def createTempDockerfile (contextPath : String) (nowId : Nat)
    (fs : List String) : List String × String :=
  let p := tempDockerfilePath contextPath nowId
  (fsInsert p fs, p)

/-- cleanupTempDockerfile: unlinks only when the file exists AND its path
contains the substring ".dockforge" (dockerBuild.ts line 85). -/
def cleanupTempDockerfile (dockerfilePath : String) (fs : List String) :
    List String :=
  if fs.contains dockerfilePath && strIncludes dockerfilePath (".dockforge") then
    fsErase dockerfilePath fs
  else
    fs

/-- Argument vector composed by buildDockerImage (lines 131-164), given the
resolved Dockerfile path. -/
def buildArgsFor (o : BuildOptions) (dockerfilePath : String) : List String :=
  ["build"] ++
  ["-t", o.imageName ++ ":" ++ o.imageTag] ++
  ["-f", dockerfilePath] ++
  (if truthyB o.noCache then ["--no-cache"] else []) ++
  (if truthyB o.pull then ["--pull"] else []) ++
  (match o.target with
   | some t => if t ≠ "" then ["--target", t] else []
   | none => []) ++
  (match o.platform with
   | some t => if t ≠ "" then ["--platform", t] else []
   | none => []) ++
  (match o.buildArgs with
   | some l => l.flatMap (fun kv => ["--build-arg", kv.1 ++ "=" ++ kv.2])
   | none => []) ++
  [o.contextPath]

/-- Message of the exception thrown when neither a Dockerfile path nor
inline content is supplied. -/
def noDockerfileMsg : String :=
  "No Dockerfile or Dockerfile content provided"

/-- buildDockerImage (lines 96-203): resolve the build input (writing a
temp Dockerfile for inline content), compose the argument vector, run the
engine, and in the `finally` clause clean up the temp file if one was
created.  Thrown errors are caught and returned as a failed result.
Returns the BuildResult together with the filesystem after the call. -/
def buildDockerImage (o : BuildOptions) (nowId : Nat) (proc : ProcOutcome)
    (fs : List String) : BuildResult × List String :=
  if truthyS o.dockerfileContent then
    let created := createTempDockerfile o.contextPath nowId fs
    let r := executeDockerCommand (buildArgsFor o created.2) proc
    ({ success := r.success, imageId := r.imageId, error := r.error,
       logs := r.logs },
     cleanupTempDockerfile created.2 created.1)
  else if truthyS o.dockerfile then
    let r := executeDockerCommand (buildArgsFor o (o.dockerfile.getD (""))) proc
    ({ success := r.success, imageId := r.imageId, error := r.error,
       logs := r.logs }, fs)
  else
    ({ success := false, imageId := none, error := some noDockerfileMsg,
       logs := ["Error: " ++ noDockerfileMsg] }, fs)

/-- testBuild (lines 413-430): delegates to buildDockerImage with the tag
suffixed by `-test-${Date.now()}` and noCache forced to true.  `nowTag` is
the Date.now() observed in testBuild, `nowId` the one observed inside
buildDockerImage for the temp-file name. -/
def testBuild (o : BuildOptions) (nowTag nowId : Nat) (proc : ProcOutcome)
    (fs : List String) : BuildResult × List String :=
  buildDockerImage
    { o with
        imageTag := o.imageTag ++ "-test-" ++ toString nowTag
        noCache := some true }
    nowId proc fs

/-! ### Run orchestration (runDockerContainer, dockerBuild.ts lines 208-315) -/

/-- RunOptions (dockerBuild.ts).  `envVariables` keeps `Object.entries`
insertion order. -/
structure RunOptions where
  imageName : String
  imageTag : String
  containerName : Option String
  portMappings : Option (List String)
  envVariables : Option (List (String × String))
  volumes : Option (List String)
  detached : Option Bool
  remove : Option Bool
  interactive : Option Bool
  tty : Option Bool
  workingDir : Option String
  network : Option String
deriving DecidableEq, Repr

/-- The final positional image reference. -/
def runImageRef (o : RunOptions) : String :=
  o.imageName ++ ":" ++ o.imageTag

/-- Port-mapping flag group: repeated `-p <mapping>` pairs in list order.
A JS array is truthy even when empty, so `some []` contributes nothing and
`none` contributes nothing alike. -/
def portSeg (o : RunOptions) : List String :=
  (o.portMappings.getD []).flatMap (fun p => ["-p", p])

/-- Environment flag group: repeated `-e KEY=value` pairs in entry order. -/
def envSeg (o : RunOptions) : List String :=
  (o.envVariables.getD []).flatMap (fun kv => ["-e", kv.1 ++ "=" ++ kv.2])

/-- Volume flag group: repeated `-v <volume>` pairs in list order. -/
def volSeg (o : RunOptions) : List String :=
  (o.volumes.getD []).flatMap (fun v => ["-v", v])

/-- Argument vector composed by runDockerContainer (lines 221-278), with the
groups in source order: name, detach/cleanup, interactivity, ports, envs,
volumes, working dir, network, image reference. -/
def runArgs (o : RunOptions) : List String :=
  ["run"] ++
  (match o.containerName with
   | some n => if n ≠ "" then ["--name", n] else []
   | none => []) ++
  (if truthyB o.detached then ["-d"] else []) ++
  (if truthyB o.remove then ["--rm"] else []) ++
  (if truthyB o.interactive then ["-i"] else []) ++
  (if truthyB o.tty then ["-t"] else []) ++
  portSeg o ++
  envSeg o ++
  volSeg o ++
  (match o.workingDir with
   | some w => if w ≠ "" then ["-w", w] else []
   | none => []) ++
  (match o.network with
   | some n => if n ≠ "" then ["--network", n] else []
   | none => []) ++
  [runImageRef o]

/-! ### Namespace validation and push flow (dockerCheck.ts) -/

/-- Characters before the first colon (`imageName.split(":")[0]`). -/
def takeUntilColon : List Char → List Char
  | [] => []
  | c :: t => if c = ':' then [] else c :: takeUntilColon t

/-- hasNamespace (dockerCheck.ts lines 85-89): the portion before the first
colon contains a "/". -/
def hasNamespace (imageName : String) : Bool :=
  (takeUntilColon imageName.data).contains '/'

/-- One external engine call: a shell command string handed to dockerExec,
or an argument vector handed to dockerSpawn. -/
inductive EngineCall where
  | execCmd (cmd : String)
  | spawnCmd (args : List String)
deriving DecidableEq, Repr

/-- The image references pushed in a call trace (`docker push <ref>`). -/
def pushTargets (calls : List EngineCall) : List String :=
  calls.filterMap (fun c =>
    match c with
    | EngineCall.spawnCmd ["push", r] => some r
    | _ => none)

/-- User responses consumed by interactiveTag: the two input boxes
(`none` = cancelled) and whether the `docker tag` call succeeds. -/
structure TagEnv where
  newName : Option String
  newTag : Option String
  tagSucceeds : Bool
deriving DecidableEq, Repr

/-- interactiveTag (dockerCheck.ts lines 106-158): prompt for a new name and
tag, rename via `docker tag`, return the new reference (or `none` when
cancelled / unchanged / failed), together with the engine calls made. -/
def interactiveTag (currentName currentTag : String) (e : TagEnv) :
    List EngineCall × Option (String × String) :=
  match e.newName with
  | none => ([], none)
  | some nm =>
    if nm = "" then ([], none)
    else
      match e.newTag with
      | none => ([], none)
      | some t =>
        let tag := if t.trim = "" then "latest" else t.trim
        let source := currentName ++ ":" ++ currentTag
        let target := nm.trim ++ ":" ++ tag
        if source = target then ([], none)
        else
          let call := EngineCall.execCmd ("docker tag " ++ source ++ " " ++ target)
          if e.tagSucceeds then ([call], some (nm.trim, tag))
          else ([call], none)

/-- PushResult (dockerCheck.ts). -/
structure PushResult where
  success : Bool
  image : String
  digest : Option String
  error : Option String
  logs : List String
deriving DecidableEq, Repr

/-- One attempt of `/digest:\s*(sha256:[a-f0-9]+)/i` at the current
position; the capture keeps the original characters of the matched region. -/
def tryDigestAt (l : List Char) : Option String :=
  match matchCI ("digest:".data) l with
  | none => none
  | some r1 =>
    let r2 := r1.dropWhile Char.isWhitespace
    match matchCI ("sha256:".data) r2 with
    | none => none
    | some r3 =>
      let hx := r3.takeWhile isHexCharCI
      if hx.isEmpty then none
      else some (String.mk (r2.take 7 ++ hx))

/-- Leftmost search for the digest pattern. -/
def scanDigest : List Char → Option String
  | [] => none
  | c :: t =>
    match tryDigestAt (c :: t) with
    | some r => some r
    | none => scanDigest t

/-- The digest captured by the last matching line, if any. -/
def pushDigest (lines : List String) : Option String :=
  lines.foldl
    (fun acc l =>
      match scanDigest l.data with
      | some d => some d
      | none => acc)
    none

/-- pushImageToHub (dockerCheck.ts lines 164-221): one `docker push` spawn;
blank lines are skipped by handleLine; non-zero exit reports the joined logs
(or the exit-code message when empty); a launch failure reports the start
error.  Returns the engine calls made and the resolved PushResult. -/
def pushImageToHub (fullImage : String) (proc : ProcOutcome) :
    List EngineCall × PushResult :=
  let calls := [EngineCall.spawnCmd ["push", fullImage]]
  match proc with
  | ProcOutcome.failedToLaunch msg =>
    (calls,
     { success := false, image := fullImage, digest := none,
       error := some ("Failed to start docker push: " ++ msg), logs := [] })
  | ProcOutcome.exited events code =>
    let lg := (events.map (fun e => e.2)).filter (fun l => l.trim ≠ "")
    if code = some 0 then
      (calls,
       { success := true, image := fullImage, digest := pushDigest lg,
         error := none, logs := lg })
    else
      let joined := String.intercalate ("\n") lg
      let msg := "Push failed with exit code " ++ codeToString code
      (calls,
       { success := false, image := fullImage, digest := none,
         error := some (if joined ≠ "" then joined else msg), logs := lg })

/-- User responses consumed by interactivePush: the warning-dialog choice,
the interactiveTag responses, and the confirmation dialog and process
behaviour for each of the at most two push attempts. -/
structure PushEnv where
  tagNow : Bool
  tagEnv : TagEnv
  confirmPush : Bool
  pushProc : ProcOutcome
  confirmPush2 : Bool
  pushProc2 : ProcOutcome
deriving Repr

/-- The namespaced branch of interactivePush: confirmation dialog, then the
actual push. -/
def pushConfirmed (name tag : String) (confirm : Bool) (proc : ProcOutcome) :
    List EngineCall × Option PushResult :=
  if confirm then
    let r := pushImageToHub (name ++ ":" ++ tag) proc
    (r.1, some r.2)
  else ([], none)

/-- interactivePush (dockerCheck.ts lines 228-297).  When the name has no
namespace: warn, optionally run interactiveTag, re-validate the new
repository, and recurse into the push with the new reference.  The
recursive call is inlined here: it is only reached after
`hasNamespace repo` has been re-checked to be true, so the callee takes the
namespaced branch and never recurses further. -/
def interactivePush (name tag : String) (env : PushEnv) :
    List EngineCall × Option PushResult :=
  if hasNamespace name then
    pushConfirmed name tag env.confirmPush env.pushProc
  else if env.tagNow then
    let tr := interactiveTag name tag env.tagEnv
    match tr.2 with
    | none => (tr.1, none)
    | some (repo, t) =>
      if hasNamespace repo then
        let pr := pushConfirmed repo t env.confirmPush2 env.pushProc2
        (tr.1 ++ pr.1, pr.2)
      else (tr.1, none)
  else ([], none)

/-! ### runContainer (DockerHubViewProvider.ts lines 488-654) -/

/-- The three run modes offered by the quick pick. -/
inductive RunModeChoice where
  | detachedMode
  | attachedMode
  | terminalMode
deriving DecidableEq, Repr

/-- User responses consumed by runContainer: the three input boxes (`none` =
cancelled), the mode quick pick, and the outcome of the managed
`execAsync` call used by the detached branch (`Except.error` = thrown,
`Except.ok` = captured stdout). -/
structure RunContainerInputs where
  containerName : Option String
  portMapping : Option String
  envVariables : Option String
  runMode : Option RunModeChoice
  managedOutcome : Except String String
deriving Repr

/-- Host-application effects runContainer performs, in order. -/
inductive UIEffect where
  | createTerminal (name : String)
  | showTerminal
  | sendText (cmd : String)
  | execManaged (cmd : String)
  | showMessage (msg : String)
deriving DecidableEq, Repr

/-- The shell command string built for the terminal branches: base flags,
then `--name`, repeated `-p` for each comma-separated port, repeated `-e`
for each comma-separated variable, then the image reference.  `withIt`
selects `-it --rm` (interactive terminal) versus `--rm` (attached). -/
def terminalRunCommand (withIt : Bool) (cn pm ev imageRef : String) : String :=
  let c0 := if withIt then "docker run -it --rm" else "docker run --rm"
  let c1 := if cn ≠ "" then c0 ++ " --name " ++ cn else c0
  let c2 :=
    if pm ≠ "" then (pm.splitOn (",")).foldl (fun a p => a ++ " -p " ++ p.trim) c1
    else c1
  let c3 :=
    if ev ≠ "" then (ev.splitOn (",")).foldl (fun a e => a ++ " -e " ++ e.trim) c2
    else c2
  c3 ++ " " ++ imageRef

/-- Argument vector of the detached branch. -/
def detachedRunArgs (cn pm ev imageRef : String) : List String :=
  ["run", "-d", "--rm"] ++
  (if cn ≠ "" then ["--name", cn] else []) ++
  (if pm ≠ "" then (pm.splitOn (",")).flatMap (fun p => ["-p", p.trim]) else []) ++
  (if ev ≠ "" then (ev.splitOn (",")).flatMap (fun e => ["-e", e.trim]) else []) ++
  [imageRef]

/-- runContainer: the ordered host-application effects of one invocation.
Each cancelled dialog returns early with no effects.  The terminal and
attached branches hand a command line to a visible terminal session and
return; only the detached branch runs a managed process. -/
def runContainerEffects (repo tag : String) (inp : RunContainerInputs) :
    List UIEffect :=
  match inp.containerName with
  | none => []
  | some cn =>
    match inp.portMapping with
    | none => []
    | some pm =>
      match inp.envVariables with
      | none => []
      | some ev =>
        match inp.runMode with
        | none => []
        | some mode =>
          let imageRef := repo ++ ":" ++ tag
          match mode with
          | RunModeChoice.terminalMode =>
            [UIEffect.createTerminal imageRef, UIEffect.showTerminal,
             UIEffect.sendText (terminalRunCommand true cn pm ev imageRef),
             UIEffect.showMessage ("Running " ++ imageRef ++ " in terminal")]
          | RunModeChoice.attachedMode =>
            [UIEffect.createTerminal imageRef, UIEffect.showTerminal,
             UIEffect.sendText (terminalRunCommand false cn pm ev imageRef),
             UIEffect.showMessage ("Running " ++ imageRef ++ " in attached mode")]
          | RunModeChoice.detachedMode =>
            let cmd := "docker " ++ String.intercalate (" ") (detachedRunArgs cn pm ev imageRef)
            match inp.managedOutcome with
            | Except.ok stdout =>
              [UIEffect.execManaged cmd,
               UIEffect.showMessage ("✅ Container started: " ++
                 (if cn ≠ "" then cn else String.mk (stdout.trim.data.take 12)))]
            | Except.error msg =>
              [UIEffect.execManaged cmd,
               UIEffect.showMessage ("Failed to run container: " ++ msg)]

/-! ### Credential handling (DockerHubAuthManager.login) -/

/-- The observable shape of the `docker login` child process call: the shell
command string handed to `exec`, and the bytes written to its stdin. -/
structure LoginInvocation where
  command : String
  stdinPayload : String
deriving DecidableEq, Repr

/-- DockerHubAuthManager.login: the command names the username and
`--password-stdin`; the token is written to the child's stdin and the
stream is closed. -/
def loginInvocation (username token : String) : LoginInvocation :=
  { command := "docker login -u " ++ username ++ " --password-stdin"
    stdinPayload := token }

/-! ### Auxiliary definitions used by the statements -/

/-- Spec-side description of the test-build variant (for the refinement
claim): the same BuildSpec with the image tag extended by a synthetic
unique suffix derived from a fresh token, and no-cache forced on. -/
def specTestBuildTransform (suffixToken : Nat) (o : BuildOptions) : BuildOptions :=
  { o with
      imageTag := o.imageTag ++ "-test-" ++ toString suffixToken
      noCache := some true }

/-- Name group of the run vector (`--name <n>` when supplied). -/
def nameSeg (o : RunOptions) : List String :=
  match o.containerName with
  | some n => if n ≠ "" then ["--name", n] else []
  | none => []

/-- Detachment/cleanup flag group of the run vector. -/
def detachCleanupSeg (o : RunOptions) : List String :=
  (if truthyB o.detached then ["-d"] else []) ++
  (if truthyB o.remove then ["--rm"] else [])

/-- Interactivity flag group of the run vector. -/
def interactivitySeg (o : RunOptions) : List String :=
  (if truthyB o.interactive then ["-i"] else []) ++
  (if truthyB o.tty then ["-t"] else [])

/-- Working-directory/network group of the run vector. -/
def wdNetSeg (o : RunOptions) : List String :=
  (match o.workingDir with
   | some w => if w ≠ "" then ["-w", w] else []
   | none => []) ++
  (match o.network with
   | some n => if n ≠ "" then ["--network", n] else []
   | none => [])

/-- Every caller-supplied string that ends up as its own element of the run
argument vector (used to state that user data does not collide with the
repeated flags themselves). -/
def runUserStrings (o : RunOptions) : List String :=
  o.containerName.toList ++
  (o.portMappings.getD []) ++
  ((o.envVariables.getD []).map (fun kv => kv.1 ++ "=" ++ kv.2)) ++
  (o.volumes.getD []) ++
  o.workingDir.toList ++
  o.network.toList ++
  [runImageRef o]

/-- Every caller-supplied string that ends up as its own element of the
build argument vector. -/
def buildUserStrings (o : BuildOptions) (dockerfilePath : String) : List String :=
  [o.imageName ++ ":" ++ o.imageTag, dockerfilePath, o.contextPath] ++
  o.target.toList ++
  o.platform.toList ++
  ((o.buildArgs.getD []).map (fun kv => kv.1 ++ "=" ++ kv.2))

/-- The sequence of per-line views emitted while folding a whole stream
through the handlers, in arrival order. -/
def streamViews (events : List (SourceT × String)) : List LineView :=
  (events.foldl
    (fun acc e =>
      ((stepLine acc.1 e.1 e.2).1, acc.2 ++ [(stepLine acc.1 e.1 e.2).2]))
    (initExecState, [])).2

/-- The error-classified stderr text of a stream: the concatenation, in
arrival order, of every error-classified stderr line, each newline
terminated (what `errorOutput` accumulates). -/
def classifiedErrorText : List (SourceT × String) → String
  | [] => ""
  | e :: t =>
    (match e.1 with
     | SourceT.stderr => if isErrorLine e.2 then e.2 ++ "\n" else ""
     | SourceT.stdout => "") ++ classifiedErrorText t

/-! ### Helper lemmas -/

theorem str_append_ne_self (a s : String) (hs : s ≠ "") : a ++ s ≠ a := by
  intro h
  apply hs
  have h3 : a.data ++ s.data = a.data := congrArg String.data h
  have h4 : s.data = [] := by simpa using h3
  cases s
  exact congrArg String.mk h4

theorem test_suffix_ne_empty (x : String) : ("-test-" ++ x) ≠ "" := by
  intro h
  have h2 := congrArg String.data h
  simp [String.append] at h2

theorem takeUntilColon_append (l1 l2 : List Char) :
    takeUntilColon (l1 ++ ':' :: l2) = takeUntilColon l1 := by
  induction l1 with
  | nil => simp [takeUntilColon]
  | cons c t ih =>
    by_cases hc : c = ':'
    · simp [takeUntilColon, hc]
    · simp [takeUntilColon, hc, ih]

theorem hasNamespace_concat (a b : String) :
    hasNamespace (a ++ ":" ++ b) = hasNamespace a := by
  unfold hasNamespace
  have hd : (a ++ ":" ++ b).data = (a.data ++ [':']) ++ b.data := rfl
  rw [hd, List.append_assoc, List.singleton_append, takeUntilColon_append]

theorem stepLine_view (st : ExecState) (src : SourceT) (line : String) :
    (stepLine st src line).2 = lineView src line := by
  cases src <;> rfl

theorem count_flag_pairs {α : Type} (y x : String) (f : α → String) (l : List α) :
    List.count y (l.flatMap fun a => [x, f a]) =
      (if y = x then l.length else 0) + List.count y (l.map f) := by
  induction l with
  | nil => simp
  | cons a t ih =>
    simp only [List.flatMap_cons, List.map_cons, List.count_append, List.count_cons,
      List.count_nil, List.length_cons, ih, beq_iff_eq]
    by_cases h : y = x
    · subst h
      by_cases h2 : f a = y <;> simp [h2] <;> omega
    · have hx : ¬(x = y) := fun hh => h hh.symm
      by_cases h2 : f a = y <;> simp [h, hx, h2] <;> omega

theorem streamViews_from (events : List (SourceT × String)) (st : ExecState)
    (acc : List LineView) :
    (events.foldl
      (fun acc e =>
        ((stepLine acc.1 e.1 e.2).1, acc.2 ++ [(stepLine acc.1 e.1 e.2).2]))
      (st, acc)).2 = acc ++ events.map (fun e => lineView e.1 e.2) := by
  induction events generalizing st acc with
  | nil => simp
  | cons e t ih =>
    rw [List.foldl_cons, ih]
    simp [stepLine_view]

theorem stepLine_errorOutput (st : ExecState) (src : SourceT) (line : String) :
    ((stepLine st src line).1).errorOutput =
      (match src with
       | SourceT.stdout => st.errorOutput
       | SourceT.stderr =>
         if isErrorLine line then st.errorOutput ++ line ++ "\n"
         else st.errorOutput) := by
  cases src <;> rfl

theorem str_append_empty (s : String) : s ++ "" = s := by
  cases s
  exact congrArg String.mk (List.append_nil _)

theorem str_empty_append (s : String) : "" ++ s = s := rfl

theorem errorOutput_foldFrom (events : List (SourceT × String)) (st : ExecState) :
    (events.foldl (fun st e => (stepLine st e.1 e.2).1) st).errorOutput =
      st.errorOutput ++ classifiedErrorText events := by
  induction events generalizing st with
  | nil => simp [classifiedErrorText, str_append_empty]
  | cons e t ih =>
    obtain ⟨src, line⟩ := e
    rw [List.foldl_cons, ih]
    cases src
    · simp [stepLine_errorOutput, classifiedErrorText, str_empty_append]
    · by_cases h : isErrorLine line = true
      · simp [stepLine_errorOutput, classifiedErrorText, h, String.append_assoc]
      · simp only [Bool.not_eq_true] at h
        simp [stepLine_errorOutput, classifiedErrorText, h, str_empty_append]

theorem runEvents_errorOutput (events : List (SourceT × String)) :
    (runEvents events).errorOutput = classifiedErrorText events := by
  have h := errorOutput_foldFrom events initExecState
  simpa [runEvents, initExecState] using h

theorem interactiveTag_no_push (n t : String) (e : TagEnv) :
    pushTargets (interactiveTag n t e).1 = [] := by
  rcases e with ⟨nn, nt, ts⟩
  unfold interactiveTag
  cases nn with
  | none => rfl
  | some nm =>
    cases nt with
    | none =>
      dsimp only
      split <;> rfl
    | some tv =>
      dsimp only
      split
      · rfl
      · cases ts <;> (repeat' split) <;> rfl

theorem exec_error_isSome (args : List String) (proc : ProcOutcome)
    (h : (executeDockerCommand args proc).success = false) :
    ((executeDockerCommand args proc).error).isSome = true := by
  cases proc with
  | failedToLaunch msg => simp [executeDockerCommand]
  | exited ev code =>
    by_cases hc : code = some 0
    · simp [executeDockerCommand, hc] at h
    · simp [executeDockerCommand, hc]

/-! ### Claim theorems -/

/-- C1 (code bug witness): a successful inline-content build leaves the
generated temporary Dockerfile on disk.  The temp file is written directly
under the context directory, so its path never contains ".dockforge", and
cleanupTempDockerfile therefore skips the unlink on every exit path. -/
theorem c1_temp_dockerfile_leaks :
    ((buildDockerImage
        { imageName := "myapp", imageTag := "latest", dockerfile := none,
          dockerfileContent := some ("FROM alpine"), contextPath := "/home/user/project",
          noCache := none, pull := none, buildArgs := none, target := none,
          platform := none }
        42 (ProcOutcome.exited [] (some 0)) []).1.success = true)
    ∧ ((buildDockerImage
        { imageName := "myapp", imageTag := "latest", dockerfile := none,
          dockerfileContent := some ("FROM alpine"), contextPath := "/home/user/project",
          noCache := none, pull := none, buildArgs := none, target := none,
          platform := none }
        42 (ProcOutcome.exited [] (some 0)) []).2.contains
          (tempDockerfilePath ("/home/user/project") 42) = true) := by
  constructor
  · rfl
  · rfl

/-- C4 (counterexample): the stderr classifier does not use a "no such
file" marker, and "unable to find image" is not classified error-like. -/
theorem c4_marker_set_counterexample :
    isErrorLine ("unable to find image") = false
    ∧ isErrorLine ("open Dockerfile: no such file or directory") = false := by
  constructor
  · rfl
  · rfl

/-- C4 (amended): a line that matches no higher-priority shape is
error-classified exactly when it contains, case-insensitively, one of the
markers "error", "failed" or "cannot"; the marker set has no "no such
file" entry and "unable to find image" is classified plain. -/
theorem c4_error_marker_set (line : String) :
    (isErrorLine line = true ↔
      ((strIncludes (lowerStr line) "error" = true)
        ∨ (strIncludes (lowerStr line) "failed" = true)
        ∨ (strIncludes (lowerStr line) "cannot" = true)))
    ∧ isErrorLine ("unable to find image") = false := by
  constructor
  · simp [isErrorLine, Bool.or_eq_true, or_assoc]
  · rfl

/-- C7 (counterexample): classification is not independent of the channel:
the same text is error-classified on stderr but not on stdout (and only
stdout extracts artifacts). -/
theorem c7_channel_dependent_counterexample :
    lineView SourceT.stdout ("error: boom") ≠ lineView SourceT.stderr ("error: boom") := by
  decide

/-- C7 (amended): per-line classification is a stateless pure function of
the pair (channel, text): the view emitted for a line does not depend on
the accumulated state, and the views emitted over a whole stream are the
per-line views in arrival order, independent of position and history. -/
theorem c7_classification_stateless (st1 st2 : ExecState) (src : SourceT)
    (line : String) (events : List (SourceT × String)) :
    ((stepLine st1 src line).2 = (stepLine st2 src line).2)
    ∧ ((stepLine st1 src line).2 = lineView src line)
    ∧ (streamViews events = events.map (fun e => lineView e.1 e.2)) := by
  refine ⟨?_, stepLine_view st1 src line, ?_⟩
  · rw [stepLine_view, stepLine_view]
  · unfold streamViews
    rw [streamViews_from]
    rfl

/-- C9: the login credential reaches the engine only through the child
process's standard input: the stdin payload is exactly the token, and the
command string handed to the shell is independent of the token (it depends
only on the username), so the secret never appears in the command line. -/
theorem c9_login_secret_only_stdin (username token other : String) :
    ((loginInvocation username token).stdinPayload = token)
    ∧ ((loginInvocation username other).command = (loginInvocation username token).command)
    ∧ ((loginInvocation username token).command =
        "docker login -u " ++ username ++ " --password-stdin") := by
  exact ⟨rfl, rfl, rfl⟩

/-- C10: the test-build operation is extensionally the ordinary build
operation applied to the options with the tag suffixed by a synthetic
unique token and noCache forced to true; the suffixed tag never equals the
original tag. -/
theorem c10_testBuild_refines_build (o : BuildOptions) (nowTag nowId : Nat)
    (proc : ProcOutcome) (fs : List String) :
    (testBuild o nowTag nowId proc fs =
      buildDockerImage (specTestBuildTransform nowTag o) nowId proc fs)
    ∧ ((specTestBuildTransform nowTag o).imageTag ≠ o.imageTag)
    ∧ ((specTestBuildTransform nowTag o).noCache = some true) := by
  refine ⟨rfl, ?_, rfl⟩
  show o.imageTag ++ "-test-" ++ toString nowTag ≠ o.imageTag
  rw [String.append_assoc]
  exact str_append_ne_self _ _ (test_suffix_ne_empty (toString nowTag))

/-- C6: in interactive-terminal mode the composed command line is handed to
a user-visible terminal session and the operation returns immediately after
starting it; no managed (captured) process execution occurs. -/
theorem c6_terminal_mode_unmanaged (repo tag cn pm ev : String)
    (mo : Except String String) :
    (runContainerEffects repo tag
        { containerName := some cn, portMapping := some pm,
          envVariables := some ev, runMode := some RunModeChoice.terminalMode,
          managedOutcome := mo } =
      [UIEffect.createTerminal (repo ++ ":" ++ tag), UIEffect.showTerminal,
       UIEffect.sendText (terminalRunCommand true cn pm ev (repo ++ ":" ++ tag)),
       UIEffect.showMessage ("Running " ++ (repo ++ ":" ++ tag) ++ " in terminal")])
    ∧ (∀ c, UIEffect.execManaged c ∉
        runContainerEffects repo tag
          { containerName := some cn, portMapping := some pm,
            envVariables := some ev, runMode := some RunModeChoice.terminalMode,
            managedOutcome := mo }) := by
  constructor
  · rfl
  · intro c hc
    simp [runContainerEffects] at hc

theorem pushImageToHub_calls (f : String) (proc : ProcOutcome) :
    (pushImageToHub f proc).1 = [EngineCall.spawnCmd ["push", f]] := by
  cases proc with
  | failedToLaunch msg => rfl
  | exited ev code =>
    dsimp only [pushImageToHub]
    split <;> rfl

theorem pushTargets_append (a b : List EngineCall) :
    pushTargets (a ++ b) = pushTargets a ++ pushTargets b := by
  unfold pushTargets
  exact List.filterMap_append a b _

/-- C2: for a reference whose portion before the tag colon has no "/", the
push flow never invokes the engine's push subcommand for that reference:
every push the flow may perform targets a re-tagged reference that was
re-validated to be namespaced, and in particular is a different reference. -/
theorem c2_push_refused_without_namespace (name tag : String) (env : PushEnv)
    (h : hasNamespace name = false) :
    ((pushTargets (interactivePush name tag env).1).all
      (fun r => hasNamespace r && (r != name ++ ":" ++ tag))) = true := by
  rcases hE : interactiveTag name tag env.tagEnv with ⟨tcalls, tres⟩
  have htp : pushTargets tcalls = [] := by
    have h2 := interactiveTag_no_push name tag env.tagEnv
    rw [hE] at h2
    exact h2
  unfold interactivePush
  rw [h]
  by_cases ht : env.tagNow = true
  · simp only [ht, hE, Bool.false_eq_true, if_true, if_false]
    cases tres with
    | none => simp [htp]
    | some rt =>
      rcases rt with ⟨repo, t⟩
      by_cases hr : hasNamespace repo = true
      · simp only [hr, if_true]
        unfold pushConfirmed
        by_cases hc : env.confirmPush2 = true
        · simp only [hc, if_true]
          rw [pushTargets_append, htp, pushImageToHub_calls]
          simp [pushTargets, hasNamespace_concat, hr]
          intro hEq
          have h3 := congrArg hasNamespace hEq
          rw [hasNamespace_concat, hasNamespace_concat, hr, h] at h3
          exact Bool.true_eq_false.mp h3
        · simp only [Bool.not_eq_true] at hc
          simp [hc, htp, pushTargets_append]
      · simp only [Bool.not_eq_true] at hr
        simp [hr, htp]
  · simp only [Bool.not_eq_true] at ht
    simp [ht, pushTargets]

/-- C2 witness: a concrete un-namespaced reference through a concrete
interaction. -/
theorem c2_push_refused_witness :
    hasNamespace ("myapp") = false
    ∧ ((pushTargets (interactivePush ("myapp") "latest"
          { tagNow := true,
            tagEnv := { newName := some ("user/myapp"), newTag := some ("v1"),
                        tagSucceeds := true },
            confirmPush := false, pushProc := ProcOutcome.exited [] (some 0),
            confirmPush2 := true,
            pushProc2 := ProcOutcome.exited [] (some 0) }).1).all
        (fun r => hasNamespace r && (r != "myapp" ++ ":" ++ "latest"))) = true :=
  ⟨by decide,
   c2_push_refused_without_namespace ("myapp") "latest" _ (by decide)⟩

theorem exit_msg_ne_empty (s : String) :
    ("Process exited with code " ++ s) ≠ "" := by
  intro h
  have h2 := congrArg String.data h
  simp [String.append] at h2

/-- C3: an engine invocation resolves successfully exactly when the process
exits with code 0; a non-zero (or null) exit resolves to a failed result
whose non-empty error body is the accumulated error-classified stderr text,
or the exit-code message when none was classified; a launch failure
resolves to a failed result carrying the launch-error message; and the
orchestrator returns every failure as data (a failed result always carries
an error message, nothing is thrown). -/
theorem c3_engine_result_contract (args : List String) (proc : ProcOutcome) :
    ((executeDockerCommand args proc).success = true ↔
      (∃ ev, proc = ProcOutcome.exited ev (some 0)))
    ∧ (∀ ev code, proc = ProcOutcome.exited ev code → code ≠ some 0 →
        ((executeDockerCommand args proc).success = false
         ∧ (executeDockerCommand args proc).error = some (exitErrorBody ev code)
         ∧ exitErrorBody ev code ≠ ""
         ∧ (classifiedErrorText ev ≠ "" →
              exitErrorBody ev code = classifiedErrorText ev)
         ∧ (classifiedErrorText ev = "" →
              exitErrorBody ev code =
                "Process exited with code " ++ codeToString code)))
    ∧ (∀ msg, proc = ProcOutcome.failedToLaunch msg →
        executeDockerCommand args proc =
          { success := false, error := some msg, imageId := none,
            containerId := none, logs := [] })
    ∧ (∀ o nowId fs, (buildDockerImage o nowId proc fs).1.success = false →
        ((buildDockerImage o nowId proc fs).1.error).isSome = true) := by
  refine ⟨?_, ?_, ?_, ?_⟩
  · cases proc with
    | failedToLaunch msg => simp [executeDockerCommand]
    | exited ev code =>
      by_cases hc : code = some 0
      · subst hc
        simp [executeDockerCommand]
      · simp [executeDockerCommand, hc]
  · intro ev code hp hc
    subst hp
    refine ⟨by simp [executeDockerCommand, hc], by simp [executeDockerCommand, hc],
      ?_, ?_, ?_⟩
    · unfold exitErrorBody
      split
      · assumption
      · exact exit_msg_ne_empty _
    · intro hne
      unfold exitErrorBody
      rw [runEvents_errorOutput]
      simp [hne]
    · intro heq
      unfold exitErrorBody
      rw [runEvents_errorOutput]
      simp [heq]
  · intro msg hp
    subst hp
    rfl
  · intro o nowId fs hb
    by_cases h1 : truthyS o.dockerfileContent = true
    · simp only [buildDockerImage, h1, if_true] at hb ⊢
      exact exec_error_isSome _ proc hb
    · simp only [Bool.not_eq_true] at h1
      by_cases h2 : truthyS o.dockerfile = true
      · simp only [buildDockerImage, h1, h2, Bool.false_eq_true, if_false,
          if_true] at hb ⊢
        exact exec_error_isSome _ proc hb
      · simp only [Bool.not_eq_true] at h2
        simp only [buildDockerImage, h1, h2, Bool.false_eq_true, if_false] at hb ⊢
        rfl

/-- C3 witness: a non-zero exit with one error-classified stderr line, and
a launch failure. -/
theorem c3_engine_result_witness :
    ((executeDockerCommand ["build"]
        (ProcOutcome.exited [(SourceT.stderr, "boom error")] (some 1))).success = false
      ∧ (executeDockerCommand ["build"]
          (ProcOutcome.exited [(SourceT.stderr, "boom error")] (some 1))).error
            = some (exitErrorBody [(SourceT.stderr, "boom error")] (some 1)))
    ∧ (executeDockerCommand ["push"] (ProcOutcome.failedToLaunch ("spawn ENOENT"))
        = { success := false, error := some ("spawn ENOENT"), imageId := none,
            containerId := none, logs := [] }) := by
  constructor
  · have h := (c3_engine_result_contract ["build"]
      (ProcOutcome.exited [(SourceT.stderr, "boom error")] (some 1))).2.1
      [(SourceT.stderr, "boom error")] (some 1) rfl (by decide)
    exact ⟨h.1, h.2.1⟩
  · exact (c3_engine_result_contract ["push"]
      (ProcOutcome.failedToLaunch ("spawn ENOENT"))).2.2.1 "spawn ENOENT" rfl

/-- C8: the derived build argument vector carries `--no-cache` exactly once
when noCache is true, and not at all when it is absent or false (assuming
no caller-supplied value is itself the literal flag string). -/
theorem c8_noCache_flag_count (o : BuildOptions) (p : String)
    (h : "--no-cache" ∉ buildUserStrings o p) :
    List.count ("--no-cache") (buildArgsFor o p) =
      (if truthyB o.noCache then 1 else 0) := by
  have hx : ∀ x, x ∈ buildUserStrings o p → ¬("--no-cache" = x) :=
    fun x hmem hEq => h (hEq ▸ hmem)
  have htag := hx (o.imageName ++ ":" ++ o.imageTag) (by simp [buildUserStrings])
  have hpp := hx p (by simp [buildUserStrings])
  have hctx := hx o.contextPath (by simp [buildUserStrings])
  simp only [buildArgsFor, List.count_append]
  have e1 : List.count ("--no-cache") ["build"] = 0 := by decide
  have e2 : List.count ("--no-cache") ["-t", o.imageName ++ ":" ++ o.imageTag] = 0 := by
    rw [List.count_eq_zero]
    simp only [List.mem_cons, List.not_mem_nil, or_false, not_or]
    exact ⟨by decide, htag⟩
  have e3 : List.count ("--no-cache") ["-f", p] = 0 := by
    rw [List.count_eq_zero]
    simp only [List.mem_cons, List.not_mem_nil, or_false, not_or]
    exact ⟨by decide, hpp⟩
  have e4 : List.count ("--no-cache")
      (if truthyB o.noCache then ["--no-cache"] else []) =
      (if truthyB o.noCache then 1 else 0) := by
    split <;> simp
  have e5 : List.count ("--no-cache")
      (if truthyB o.pull then ["--pull"] else []) = 0 := by
    split
    · decide
    · rfl
  have e6 : List.count ("--no-cache")
      (match o.target with
       | some t => if t ≠ "" then ["--target", t] else []
       | none => []) = 0 := by
    cases hT : o.target with
    | none => rfl
    | some t =>
      have ht := hx t (by simp [buildUserStrings, hT])
      dsimp only
      split
      · rw [List.count_eq_zero]
        simp only [List.mem_cons, List.not_mem_nil, or_false, not_or]
        exact ⟨by decide, ht⟩
      · rfl
  have e7 : List.count ("--no-cache")
      (match o.platform with
       | some t => if t ≠ "" then ["--platform", t] else []
       | none => []) = 0 := by
    cases hT : o.platform with
    | none => rfl
    | some t =>
      have ht := hx t (by simp [buildUserStrings, hT])
      dsimp only
      split
      · rw [List.count_eq_zero]
        simp only [List.mem_cons, List.not_mem_nil, or_false, not_or]
        exact ⟨by decide, ht⟩
      · rfl
  have e8 : List.count ("--no-cache")
      (match o.buildArgs with
       | some l => l.flatMap (fun kv => ["--build-arg", kv.1 ++ "=" ++ kv.2])
       | none => []) = 0 := by
    cases hB : o.buildArgs with
    | none => rfl
    | some l =>
      dsimp only
      rw [count_flag_pairs]
      have hz : List.count ("--no-cache")
          (l.map (fun kv => kv.1 ++ "=" ++ kv.2)) = 0 := by
        rw [List.count_eq_zero]
        intro hmem
        apply h
        unfold buildUserStrings
        exact List.mem_append_right _ (by simpa [hB] using hmem)
      rw [hz]
      simp
  have e9 : List.count ("--no-cache") [o.contextPath] = 0 := by
    rw [List.count_eq_zero]
    simp only [List.mem_singleton]
    exact hctx
  rw [e1, e2, e3, e4, e5, e6, e7, e8, e9]
  omega

/-- C8 witness: a concrete BuildSpec with noCache set. -/
theorem c8_noCache_flag_witness :
    ("--no-cache" ∉ buildUserStrings
        { imageName := "web", imageTag := "v1", dockerfile := none,
          dockerfileContent := some ("FROM alpine"), contextPath := ".",
          noCache := some true, pull := some true,
          buildArgs := some [("MODE", "prod")], target := none,
          platform := none } "Dockerfile.99")
    ∧ List.count ("--no-cache")
        (buildArgsFor
          { imageName := "web", imageTag := "v1", dockerfile := none,
            dockerfileContent := some ("FROM alpine"), contextPath := ".",
            noCache := some true, pull := some true,
            buildArgs := some [("MODE", "prod")], target := none,
            platform := none } "Dockerfile.99") =
      (if truthyB (some true) then 1 else 0) :=
  ⟨by decide,
   c8_noCache_flag_count
     { imageName := "web", imageTag := "v1", dockerfile := none,
       dockerfileContent := some ("FROM alpine"), contextPath := ".",
       noCache := some true, pull := some true,
       buildArgs := some [("MODE", "prod")], target := none,
       platform := none } "Dockerfile.99" (by decide)⟩

theorem runArgs_count (o : RunOptions) (y : String)
    (hy : y ∉ runUserStrings o)
    (h1 : y ≠ "run") (h2 : y ≠ "--name") (h3 : y ≠ "-d") (h4 : y ≠ "--rm")
    (h5 : y ≠ "-i") (h6 : y ≠ "-t") (h7 : y ≠ "-w") (h8 : y ≠ "--network") :
    List.count y (runArgs o) =
      ((if y = "-p" then (o.portMappings.getD []).length else 0)
       + (if y = "-e" then (o.envVariables.getD []).length else 0)
       + (if y = "-v" then (o.volumes.getD []).length else 0)) := by
  have hne : ∀ x, x ∈ runUserStrings o → ¬(y = x) :=
    fun x hm hEq => hy (hEq ▸ hm)
  simp only [runArgs, List.count_append]
  have e1 : List.count y ["run"] = 0 := by
    rw [List.count_eq_zero]
    simp only [List.mem_singleton]
    exact h1
  have e2 : List.count y
      (match o.containerName with
       | some n => if n ≠ "" then ["--name", n] else []
       | none => []) = 0 := by
    cases hC : o.containerName with
    | none => rfl
    | some n =>
      have hn := hne n (by simp [runUserStrings, hC])
      dsimp only
      split
      · rw [List.count_eq_zero]
        simp only [List.mem_cons, List.not_mem_nil, or_false, not_or]
        exact ⟨h2, hn⟩
      · rfl
  have e3 : List.count y (if truthyB o.detached then ["-d"] else []) = 0 := by
    split
    · rw [List.count_eq_zero]
      simp only [List.mem_singleton]
      exact h3
    · rfl
  have e4 : List.count y (if truthyB o.remove then ["--rm"] else []) = 0 := by
    split
    · rw [List.count_eq_zero]
      simp only [List.mem_singleton]
      exact h4
    · rfl
  have e5 : List.count y (if truthyB o.interactive then ["-i"] else []) = 0 := by
    split
    · rw [List.count_eq_zero]
      simp only [List.mem_singleton]
      exact h5
    · rfl
  have e6 : List.count y (if truthyB o.tty then ["-t"] else []) = 0 := by
    split
    · rw [List.count_eq_zero]
      simp only [List.mem_singleton]
      exact h6
    · rfl
  have e7 : List.count y (portSeg o) =
      (if y = "-p" then (o.portMappings.getD []).length else 0) := by
    unfold portSeg
    rw [count_flag_pairs y ("-p") (fun a => a) (o.portMappings.getD [])]
    have hz : List.count y ((o.portMappings.getD []).map (fun a => a)) = 0 := by
      rw [List.count_eq_zero]
      intro hm
      simp only [List.map_id'] at hm
      refine hne y ?_ rfl
      unfold runUserStrings
      exact List.mem_append_left _ (List.mem_append_left _ (List.mem_append_left _
        (List.mem_append_left _ (List.mem_append_left _
          (List.mem_append_right _ hm)))))
    rw [hz]
    omega
  have e8 : List.count y (envSeg o) =
      (if y = "-e" then (o.envVariables.getD []).length else 0) := by
    unfold envSeg
    rw [count_flag_pairs y ("-e") (fun kv => kv.1 ++ "=" ++ kv.2)
      (o.envVariables.getD [])]
    have hz : List.count y
        ((o.envVariables.getD []).map (fun kv => kv.1 ++ "=" ++ kv.2)) = 0 := by
      rw [List.count_eq_zero]
      intro hm
      refine hne y ?_ rfl
      unfold runUserStrings
      exact List.mem_append_left _ (List.mem_append_left _ (List.mem_append_left _
        (List.mem_append_left _ (List.mem_append_right _ hm))))
    rw [hz]
    omega
  have e9 : List.count y (volSeg o) =
      (if y = "-v" then (o.volumes.getD []).length else 0) := by
    unfold volSeg
    rw [count_flag_pairs y ("-v") (fun a => a) (o.volumes.getD [])]
    have hz : List.count y ((o.volumes.getD []).map (fun a => a)) = 0 := by
      rw [List.count_eq_zero]
      intro hm
      simp only [List.map_id'] at hm
      refine hne y ?_ rfl
      unfold runUserStrings
      exact List.mem_append_left _ (List.mem_append_left _ (List.mem_append_left _
        (List.mem_append_right _ hm)))
    rw [hz]
    omega
  have e10 : List.count y
      (match o.workingDir with
       | some w => if w ≠ "" then ["-w", w] else []
       | none => []) = 0 := by
    cases hW : o.workingDir with
    | none => rfl
    | some w =>
      have hw := hne w (by simp [runUserStrings, hW])
      dsimp only
      split
      · rw [List.count_eq_zero]
        simp only [List.mem_cons, List.not_mem_nil, or_false, not_or]
        exact ⟨h7, hw⟩
      · rfl
  have e11 : List.count y
      (match o.network with
       | some n => if n ≠ "" then ["--network", n] else []
       | none => []) = 0 := by
    cases hN : o.network with
    | none => rfl
    | some n =>
      have hn := hne n (by simp [runUserStrings, hN])
      dsimp only
      split
      · rw [List.count_eq_zero]
        simp only [List.mem_cons, List.not_mem_nil, or_false, not_or]
        exact ⟨h8, hn⟩
      · rfl
  have e12 : List.count y [runImageRef o] = 0 := by
    rw [List.count_eq_zero]
    simp only [List.mem_singleton]
    exact hne (runImageRef o) (by simp [runUserStrings])
  rw [e1, e2, e3, e4, e5, e6, e7, e8, e9, e10, e11, e12]
  omega

/-- C5: the composed run vector keeps the source's group order (name,
detachment/cleanup, interactivity, ports, environment, volumes,
working-directory/network, image reference last); each repeated-flag group
is the flag paired immediately with its value in caller-supplied order, and
for N ports, M environment entries and K volumes the vector carries exactly
N, M and K occurrences of the respective flags (assuming no caller value is
itself one of the flag strings). -/
theorem c5_run_vector_composition (o : RunOptions)
    (hp : "-p" ∉ runUserStrings o) (he : "-e" ∉ runUserStrings o)
    (hv : "-v" ∉ runUserStrings o) :
    (runArgs o =
      ["run"] ++ nameSeg o ++ detachCleanupSeg o ++ interactivitySeg o ++
        portSeg o ++ envSeg o ++ volSeg o ++ wdNetSeg o ++ [runImageRef o])
    ∧ (portSeg o = (o.portMappings.getD []).flatMap (fun p => ["-p", p]))
    ∧ (envSeg o = (o.envVariables.getD []).flatMap
        (fun kv => ["-e", kv.1 ++ "=" ++ kv.2]))
    ∧ (volSeg o = (o.volumes.getD []).flatMap (fun v => ["-v", v]))
    ∧ (List.count ("-p") (runArgs o) = (o.portMappings.getD []).length)
    ∧ (List.count ("-e") (runArgs o) = (o.envVariables.getD []).length)
    ∧ (List.count ("-v") (runArgs o) = (o.volumes.getD []).length)
    ∧ ((runArgs o).getLast? = some (runImageRef o)) := by
  refine ⟨?_, rfl, rfl, rfl, ?_, ?_, ?_, ?_⟩
  · simp [runArgs, nameSeg, detachCleanupSeg, interactivitySeg, wdNetSeg,
      List.append_assoc]
  · have h := runArgs_count o ("-p") hp (by decide) (by decide) (by decide)
      (by decide) (by decide) (by decide) (by decide) (by decide)
    rw [if_pos rfl, if_neg (by decide), if_neg (by decide)] at h
    simpa using h
  · have h := runArgs_count o ("-e") he (by decide) (by decide) (by decide)
      (by decide) (by decide) (by decide) (by decide) (by decide)
    rw [if_neg (by decide), if_pos rfl, if_neg (by decide)] at h
    simpa using h
  · have h := runArgs_count o ("-v") hv (by decide) (by decide) (by decide)
      (by decide) (by decide) (by decide) (by decide) (by decide)
    rw [if_neg (by decide), if_neg (by decide), if_pos rfl] at h
    simpa using h
  · exact List.getLast?_concat _

/-- C5 witness: two port mappings, one environment entry, one volume. -/
theorem c5_run_vector_witness :
    (("-p" ∉ runUserStrings
        { imageName := "web", imageTag := "v1", containerName := some ("web1"),
          portMappings := some ["8080:80", "3000:3000"],
          envVariables := some [("NODE_ENV", "production")],
          volumes := some ["data:/data"], detached := some true,
          remove := some true, interactive := none, tty := none,
          workingDir := some ("/app"), network := some ("bridge") })
      ∧ ("-e" ∉ runUserStrings
        { imageName := "web", imageTag := "v1", containerName := some ("web1"),
          portMappings := some ["8080:80", "3000:3000"],
          envVariables := some [("NODE_ENV", "production")],
          volumes := some ["data:/data"], detached := some true,
          remove := some true, interactive := none, tty := none,
          workingDir := some ("/app"), network := some ("bridge") })
      ∧ ("-v" ∉ runUserStrings
        { imageName := "web", imageTag := "v1", containerName := some ("web1"),
          portMappings := some ["8080:80", "3000:3000"],
          envVariables := some [("NODE_ENV", "production")],
          volumes := some ["data:/data"], detached := some true,
          remove := some true, interactive := none, tty := none,
          workingDir := some ("/app"), network := some ("bridge") }))
    ∧ (List.count ("-p") (runArgs
        { imageName := "web", imageTag := "v1", containerName := some ("web1"),
          portMappings := some ["8080:80", "3000:3000"],
          envVariables := some [("NODE_ENV", "production")],
          volumes := some ["data:/data"], detached := some true,
          remove := some true, interactive := none, tty := none,
          workingDir := some ("/app"), network := some ("bridge") }) = 2) := by
  refine ⟨⟨by decide, by decide, by decide⟩, ?_⟩
  have h := (c5_run_vector_composition
    { imageName := "web", imageTag := "v1", containerName := some ("web1"),
      portMappings := some ["8080:80", "3000:3000"],
      envVariables := some [("NODE_ENV", "production")],
      volumes := some ["data:/data"], detached := some true,
      remove := some true, interactive := none, tty := none,
      workingDir := some ("/app"), network := some ("bridge") }
    (by decide) (by decide) (by decide)).2.2.2.2.1
  simpa using h
